import Mathlib

/-!
Verification development for the webmidi repository: a shallow embedding of
the MIDI event-dispatch engine (the InputChannel message parser with its
channel-mode sub-dispatch, the parameter-number assembler), the generic
EventEmitter, the octave-offset setters and the 7-bit numeric conversion
utilities, together with theorems settling the specification claims.

JavaScript numbers are embedded as rationals where the source only performs
exact arithmetic on small integers; fallible code is embedded with Except;
mutable object state is embedded by explicit state passing.
-/

namespace WebmidiSpec

/-- JS-style clamping of a rational into an interval: min(max(x, lo), hi). -/
def clampQ (x lo hi : ℚ) : ℚ := min (max x lo) hi

/-- JS Math.round on a finite rational: half-up rounding, floor(x + 1/2). -/
def roundJS (x : ℚ) : ℤ := Int.floor (x + 1/2)

/-- Modelled from the spec: Utilities.from7bitToFloat. The implementation is
not under src (only its declaration, in build/Input.d.ts); per the spec it
returns clamp(v,0,127)/127. Only finite numeric inputs are modelled (the
claims use integer inputs); the Infinity and NaN cases of the spec lie
outside the embedded domain. -/
def from7bitToFloat (v : ℚ) : ℚ := clampQ v 0 127 / 127

/-- Modelled from the spec: Utilities.fromFloatTo7Bit. The implementation is
not under src (only its declaration, in build/Input.d.ts); per the spec it
returns round(clamp(v,0,1) * 127), with JS Math.round semantics. -/
def fromFloatTo7Bit (v : ℚ) : ℤ := roundJS (clampQ v 0 1 * 127)

/-- Modelled from the spec: Utilities.toNormalized, the conversion the channel
parser applies to 7-bit data bytes. Its implementation is not under src; the
dispatch table of the spec computes every such value as from7bitToFloat of
the data byte. -/
def toNormalized (v : ℕ) : ℚ := from7bitToFloat (v : ℚ)

/-- Modelled from the spec: Utilities.offsetNumber for the octave-offset
composition (implementation not under src; declared in build/Input.d.ts as
returning the note number offset by 12 per octave, clamped into 0..127).
The semitone argument is omitted because the channel parser never passes
one. -/
def offsetNumber (n : ℕ) (octaveOffset : ℤ) : ℕ :=
  (min (max ((n : ℤ) + octaveOffset * 12) 0) 127).toNat

/-- The payload of the Note objects the channel parser attaches to note
events, embedded at the level the parser uses the Note constructor: the
number passed in, the stored raw velocities and the derived float
velocities. An absent option leaves the default attack respectively release
of from7bitToFloat(64) (WebMidi.defaults.note), hence raw value 64; a
supplied rawAttack or rawRelease sets the velocity via from7bitToFloat, so
the raw accessor reproduces the supplied 7-bit value. -/
structure NotePayload where
  number : ℕ
  rawAttack : ℕ
  rawRelease : ℕ
  attack : ℚ
  release : ℚ
  deriving DecidableEq

/-- Builds the NotePayload for a Note constructed with the given number and
optional rawAttack and rawRelease options, as in part_004. -/
def mkNote (number : ℕ) (rawAttackOpt rawReleaseOpt : Option ℕ) : NotePayload :=
  { number := number
    rawAttack := rawAttackOpt.getD 64
    rawRelease := rawReleaseOpt.getD 64
    attack := from7bitToFloat ((rawAttackOpt.getD 64 : ℕ) : ℚ)
    release := from7bitToFloat ((rawReleaseOpt.getD 64 : ℕ) : ℚ) }

/-- A decoded MIDI message as the channel parser receives it: the type tag
produced by the message decoder, the raw bytes (status byte first) and the
data bytes. -/
structure MidiMessage where
  type : String
  data : List ℕ
  dataBytes : List ℕ
  deriving DecidableEq

/-- Modelled from the spec: the status-byte classification of the Message
decoder (the Message class implementation is not under src, only
build/Message.d.ts). The high nibble selects the channel-voice command; the
low nibble (channel number) does not influence the channel parser. -/
def messageTypeFromStatus (status : ℕ) : String :=
  if status / 16 = 8 then "noteoff"
  else if status / 16 = 9 then "noteon"
  else if status / 16 = 10 then "keyaftertouch"
  else if status / 16 = 11 then "controlchange"
  else if status / 16 = 12 then "programchange"
  else if status / 16 = 13 then "channelaftertouch"
  else if status / 16 = 14 then "pitchbend"
  else "unknownmessage"

/-- A channel-voice message from a status byte and its data bytes. -/
def mkChannelMessage (status : ℕ) (bytes : List ℕ) : MidiMessage :=
  { type := messageTypeFromStatus status, data := status :: bytes, dataBytes := bytes }

/-- Modelled from the spec: the lookup getCcNameByNumber performs in
WebMidi.MIDI_CONTROL_CHANGE_MESSAGES (the table itself is not under src).
The entries for 120..127 follow the channel-mode list of the spec
(124 omnimodeoff, 125 omnimodeon, 126 polymodeon, 127 monomodeon);
controller numbers without a name resolve to none (JS undefined). -/
def ccNameByNumber (n : ℕ) : Option String :=
  if n = 120 then some "allsoundoff"
  else if n = 121 then some "resetallcontrollers"
  else if n = 122 then some "localcontrol"
  else if n = 123 then some "allnotesoff"
  else if n = 124 then some "omnimodeoff"
  else if n = 125 then some "omnimodeon"
  else if n = 126 then some "polymodeon"
  else if n = 127 then some "monomodeon"
  else none

/-- The value attached to an emitted channel event: a number or a boolean. -/
inductive EventValue
  | num (q : ℚ)
  | bool (b : Bool)
  deriving DecidableEq

/-- One event emitted by the channel parser, with the payload fields the
parser assigns. Fields left at none embed JS properties the branch does not
set. The note-identifier string of the keyaftertouch branch is not carried
(note-name formatting is outside the embedded core); its raw key number is. -/
structure ChannelEvent where
  type : String
  value : Option EventValue := none
  rawValue : Option ℕ := none
  note : Option NotePayload := none
  controllerNumber : Option ℕ := none
  controllerName : Option String := none
  velocity : Option ℚ := none
  rawVelocity : Option ℕ := none
  rawKey : Option ℕ := none
  deriving DecidableEq

/-- Embeds InputChannel._parseChannelModeMessage (part_000). The event type
becomes the controller name; localcontrol reads the third raw byte of the
message; the omnimodeon/omnimodeoff pair collapses onto omnimode with a
boolean value and monomodeon/polymodeon onto monomode. The parser only calls
this for controller numbers at least 120, which all carry a name; for an
unnamed controller the source would set an undefined event type and the
subsequent emit would throw, a path kept unreachable here by a sentinel. -/
def parseChannelModeMessage (msg : MidiMessage) (e : ChannelEvent) : List ChannelEvent :=
  let ev0 := { e with type := e.controllerName.getD "undefined" }
  let ev1 :=
    if ev0.type = "localcontrol" then
      { ev0 with value := some (.bool (msg.data.getD 2 0 == 127)) }
    else ev0
  let ev2 :=
    if ev1.type = "omnimodeon" then { ev1 with type := "omnimode", value := some (.bool true) }
    else if ev1.type = "omnimodeoff" then
      { ev1 with type := "omnimode", value := some (.bool false) }
    else ev1
  let ev3 :=
    if ev2.type = "monomodeon" then { ev2 with type := "monomode", value := some (.bool true) }
    else if ev2.type = "polymodeon" then
      { ev2 with type := "monomode", value := some (.bool false) }
    else ev2
  [ev3]

/-- Embeds InputChannel._parseEventForStandardMessages (part_000), returning
the events the call emits, in emission order (a channel-mode event precedes
the generic controlchange event, as the sub-parser emits inside the branch).
The octave offset argument stands for the sum of the channel, input and
global offsets the source adds at the Note construction sites. Data bytes
are read with default 0: well-formed channel-voice messages carry all their
data bytes, and the JS undefined produced by a missing byte is not
modelled. The JS left shift by 7 on a data byte is embedded as
multiplication by 128, exact for 7-bit operands. -/
def parseEventForStandardMessages (octaveOffsetTotal : ℤ) (msg : MidiMessage) :
    List ChannelEvent :=
  let t0 := if msg.type = "" then "unknownmidimessage" else msg.type
  let data1 := msg.dataBytes.getD 0 0
  let data2 := msg.dataBytes.getD 1 0
  if t0 = "noteoff" ∨ (t0 = "noteon" ∧ data2 = 0) then
    let note := mkNote (offsetNumber data1 octaveOffsetTotal) (some 0) (some data2)
    [{ type := t0
       note := some note
       value := some (.num (toNormalized data2))
       rawValue := some data2
       velocity := some note.release
       rawVelocity := some note.rawRelease }]
  else if t0 = "noteon" then
    let note := mkNote (offsetNumber data1 octaveOffsetTotal) (some data2) none
    [{ type := t0
       note := some note
       value := some (.num (toNormalized data2))
       rawValue := some data2
       velocity := some note.attack
       rawVelocity := some note.rawAttack }]
  else if t0 = "keyaftertouch" then
    [{ type := t0
       rawKey := some data1
       value := some (.num (toNormalized data2))
       rawValue := some data2
       note := some (mkNote (offsetNumber data1 octaveOffsetTotal) none none) }]
  else if t0 = "controlchange" then
    let event : ChannelEvent :=
      { type := t0
        controllerNumber := some data1
        controllerName := ccNameByNumber data1
        value := some (.num (toNormalized data2))
        rawValue := some data2 }
    let modeEvents := if 120 ≤ data1 then parseChannelModeMessage msg event else []
    modeEvents ++ [event]
  else if t0 = "programchange" then
    [{ type := t0, value := some (.num ((data1 : ℚ) + 1)), rawValue := some data1 }]
  else if t0 = "channelaftertouch" then
    [{ type := t0, value := some (.num (toNormalized data1)), rawValue := some data1 }]
  else if t0 = "pitchbend" then
    [{ type := t0
       value := some (.num (((data2 : ℚ) * 128 + (data1 : ℚ) - 8192) / 8192))
       rawValue := some (data2 * 128 + data1) }]
  else
    [{ type := "unknownmessage" }]

/-- Embeds InputChannel._processMidiMessageEvent: the midimessage event is
emitted first, then the standard-message events. The call to the legacy
NRPN parser is commented out in the source and therefore absent here. -/
def processMidiMessageEvent (octaveOffsetTotal : ℤ) (msg : MidiMessage) : List ChannelEvent :=
  { type := "midimessage" } :: parseEventForStandardMessages octaveOffsetTotal msg

/-- An event name handed to the emitter: a string or the any-event symbol. -/
inductive EName
  | str (s : String)
  | anyEvent
  deriving DecidableEq

/-- String(Symbol.for("Any event")), the key under which any-event listeners
are stored in the event map. -/
def anyEventKey : String := "Symbol(Any event)"

/-- String(event), the event-map key of an event name. -/
def EName.key : EName → String
  | .str s => s
  | .anyEvent => anyEventKey

/-- A callback context: the default is the target emitter itself, any other
object is carried by an identifier. Contexts compare by identity, which the
embedding carries as values. -/
inductive Ctx
  | target
  | obj (n : ℕ)
  deriving DecidableEq

/-- One registered listener. Callbacks are embedded as pure functions stood
for by an identifier; remaining is none for Infinity; the id field models JS
object identity, letting field updates made during an emit reach the record
stored in the event map. -/
structure Listener where
  id : ℕ
  event : EName
  callback : ℕ
  context : Ctx
  remaining : Option ℤ
  suspended : Bool
  count : ℕ
  argumentsList : Option (List ℤ)
  deriving DecidableEq

/-- The options object accepted by addListener and the Listener constructor;
none embeds an absent property. The duration option is not carried: the
timed-expiry timer is outside the embedded, single-dispatch behavior. -/
structure ListenerOptions where
  context : Option Ctx := none
  prepend : Option Bool := none
  remaining : Option ℤ := none
  argumentsList : Option (List ℤ) := none
  deriving DecidableEq

/-- The EventEmitter state: the event map (a JS object, embedded as an
association list in key-insertion order) and the emitter-level suspension
flag. nextListenerId supplies fresh object identities for new listeners. -/
structure EventEmitter where
  eventMap : List (String × List Listener) := []
  eventsSuspended : Bool := false
  nextListenerId : ℕ := 0
  deriving DecidableEq

/-- Reads this.eventMap at a key; none embeds an absent property. -/
def mapGet (m : List (String × List Listener)) (k : String) : Option (List Listener) :=
  (m.find? (fun p => p.1 == k)).map Prod.snd

/-- Writes this.eventMap at a key, creating the key at the end when absent. -/
def mapSet (m : List (String × List Listener)) (k : String) (v : List Listener) :
    List (String × List Listener) :=
  if (m.find? (fun p => p.1 == k)).isSome then
    m.map (fun p => if p.1 == k then (p.1, v) else p)
  else m ++ [(k, v)]

/-- Deletes a key of this.eventMap. -/
def mapDelete (m : List (String × List Listener)) (k : String) :
    List (String × List Listener) :=
  m.filter (fun p => p.1 != k)

def eventTypeErrorMsg : String :=
  "TypeError: The event parameter must be a string or EventEmitter.ANY_EVENT."

def undefinedOptionsErrorMsg : String :=
  "TypeError: Cannot read properties of undefined (reading arguments)"

/-- Embeds the Listener constructor (the Listener class). The event, target
and callback validations always pass for the embedded types (events are
strings or the any-event symbol, the target is the owning emitter, callbacks
are function identifiers). Accessing options.arguments on an undefined
options argument throws before the defaults are merged; with an options
object present, the defaults give context = target and remaining = Infinity
unless the supplied remaining is at least 1. The duration timer (setTimeout
self-removal) is not modelled: no claim involves timed expiry. -/
def Listener.make (id : ℕ) (event : EName) (callback : ℕ)
    (options : Option ListenerOptions) : Except String Listener :=
  match options with
  | none => .error undefinedOptionsErrorMsg
  | some o =>
      .ok { id := id
            event := event
            callback := callback
            context := o.context.getD Ctx.target
            remaining := match o.remaining with
              | none => none
              | some r => if 1 ≤ r then some r else none
            suspended := false
            count := 0
            argumentsList := o.argumentsList }

/-- The part of addListener after its event and callback checks: construct
the Listener (which throws on undefined options), create the event-map entry
when needed, then unshift or push according to options.prepend. The prepend
read cannot reach an undefined options object, since the constructor has
already thrown on it. -/
def addListenerChecked (em : EventEmitter) (event : EName) (callback : ℕ)
    (options : Option ListenerOptions) : Except String (EventEmitter × Listener) :=
  match Listener.make em.nextListenerId event callback options with
  | .error e => .error e
  | .ok l =>
      let key := event.key
      let arr := (mapGet em.eventMap key).getD []
      let prependFlag := match options with
        | some o => o.prepend.getD false
        | none => false
      let arr2 := if prependFlag then l :: arr else arr ++ [l]
      let em2 := { em with eventMap := mapSet em.eventMap key arr2, nextListenerId := em.nextListenerId + 1 }
      .ok (em2, l)

/-- Embeds EventEmitter.addListener: a string event must be non-empty (the
any-event symbol always passes), the callback must be a function (always
true of the embedded callbacks), then the Listener is constructed and
stored. -/
def addListener (em : EventEmitter) (event : EName) (callback : ℕ)
    (options : Option ListenerOptions) : Except String (EventEmitter × Listener) :=
  match event with
  | .str s =>
      if s.length < 1 then .error eventTypeErrorMsg
      else addListenerChecked em event callback options
  | .anyEvent => addListenerChecked em event callback options

/-- The options removeListener matches on; the outer Option embeds property
presence, the inner Option of remaining embeds Infinity as none. -/
structure RemoveOptions where
  context : Option Ctx := none
  remaining : Option (Option ℤ) := none
  deriving DecidableEq

/-- JS truthiness of options.remaining: absent and 0 are falsy, Infinity and
any other number are truthy. -/
def truthyRemaining : Option (Option ℤ) → Bool
  | none => false
  | some none => true
  | some (some r) => r != 0

/-- Embeds EventEmitter.removeListener. With no event, the whole map is
reset; with an event but no entry, nothing happens; otherwise the listeners
that fail every supplied criterion are kept and an emptied entry is deleted.
The options argument is always supplied at the embedded call sites
(Listener.remove passes context and remaining), so the undefined-options
access of the source is not modelled. -/
def removeListener (em : EventEmitter) (event : Option EName) (callback : Option ℕ)
    (options : RemoveOptions) : EventEmitter :=
  match event with
  | none => { em with eventMap := [] }
  | some ev =>
      match mapGet em.eventMap ev.key with
      | none => em
      | some arr =>
          let keep := arr.filter (fun l =>
            (callback.isSome && l.callback != callback.getD 0) ||
            (truthyRemaining options.remaining && options.remaining.getD none != l.remaining) ||
            (options.context.isSome && options.context.getD Ctx.target != l.context))
          if keep.length != 0 then { em with eventMap := mapSet em.eventMap ev.key keep }
          else { em with eventMap := mapDelete em.eventMap ev.key }

/-- The listener.remaining > 0 execution guard: Infinity passes. -/
def listenerRuns (rem : Option ℤ) : Bool :=
  match rem with
  | none => true
  | some r => 0 < r

/-- The predecrement of listener.remaining: Infinity minus one stays
Infinity. -/
def decrRemaining : Option ℤ → Option ℤ
  | none => none
  | some r => some (r - 1)

/-- The post-decrement removal guard remaining < 1: false for Infinity. -/
def remainingBelowOne : Option ℤ → Bool
  | none => false
  | some r => r < 1

/-- Writes an updated listener record back over every stored record sharing
its identity (the JS listener object is shared between the event map and the
snapshot emit iterates over). -/
def updateListenerRecord (m : List (String × List Listener)) (l : Listener) :
    List (String × List Listener) :=
  m.map (fun p => (p.1, p.2.map (fun x => if x.id == l.id then l else x)))

/-- One iteration of the emit forEach over the listener snapshot: a
suspended listener is skipped entirely; otherwise the callback runs when
remaining > 0 and its return value (embedded as the callback identifier
paired with its parameters) is collected, remaining is decremented, and the
listener removes itself when the decremented remaining drops below 1.
Callbacks are pure in the embedding, so a listener record is only mutated by
its own iteration. -/
def emitStep (args : List ℤ) (acc : EventEmitter × List (ℕ × List ℤ)) (l : Listener) :
    EventEmitter × List (ℕ × List ℤ) :=
  if l.suspended then acc
  else
    let params := args ++ l.argumentsList.getD []
    let results := if listenerRuns l.remaining then acc.2 ++ [(l.callback, params)] else acc.2
    let newCount := if listenerRuns l.remaining then l.count + 1 else l.count
    let rem := decrRemaining l.remaining
    let updated := { l with remaining := rem, count := newCount }
    let em1 := { acc.1 with eventMap := updateListenerRecord acc.1.eventMap updated }
    let em2 :=
      if remainingBelowOne rem then
        removeListener em1 (some l.event) (some l.callback)
          { context := some updated.context, remaining := some rem }
      else em1
    (em2, results)

/-- Embeds EventEmitter.emit for a string event name. A suspended emitter
returns undefined (none) through a bare return, despite the declared Array
return type of the method. Otherwise the snapshot concatenates the any-event
listeners BEFORE the listeners registered under the specific event name, and
the forEach above runs over that snapshot, returning the collected results
array. -/
def emit (em : EventEmitter) (event : String) (args : List ℤ) :
    Option (EventEmitter × List (ℕ × List ℤ)) :=
  if em.eventsSuspended then none
  else
    let anyListeners := (mapGet em.eventMap anyEventKey).getD []
    let listeners := match mapGet em.eventMap event with
      | some arr => anyListeners ++ arr
      | none => anyListeners
    some (listeners.foldl (emitStep args) (em, []))

def eeEmpty : EventEmitter := {}

/-- An emitter holding listener callback 0 registered for the event test,
then listener callback 1 registered for the any-event symbol, both with
default options — the listener-ordering scenario (specific listener A first,
then global listener B). The fallbacks are unreachable: addListener cannot
fail on these inputs. -/
def emitterSpecificThenAny : EventEmitter :=
  match addListener eeEmpty (EName.str "test") 0 (some {}) with
  | .ok r =>
      match addListener r.1 EName.anyEvent 1 (some {}) with
      | .ok r2 => r2.1
      | .error _ => eeEmpty
  | .error _ => eeEmpty

/-- An emitter with one listener for the event test whose emitter-level
eventsSuspended flag is set. -/
def emitterWithSuspendedFlag : EventEmitter :=
  match addListener eeEmpty (EName.str "test") 0 (some {}) with
  | .ok r => { r.1 with eventsSuspended := true }
  | .error _ => eeEmpty

/-- A JS value reaching the octave-offset setters: a finite number, a
string, or undefined. -/
inductive JSValue
  | num (q : ℚ)
  | str (s : String)
  | undef
  deriving DecidableEq

/-- Truncation of a rational toward zero, the number-to-integer rule of JS
parseInt on a finite numeric argument. -/
def truncQ (q : ℚ) : ℤ :=
  if 0 ≤ q then Int.floor q else -(Int.floor (-q))

/-- Reads the leading decimal digits of a character list as a natural
number; none when there is no leading digit. -/
def leadingNat (cs : List Char) : Option ℕ :=
  let ds := cs.takeWhile Char.isDigit
  if ds.isEmpty then none
  else some (ds.foldl (fun n c => n * 10 + (c.toNat - 48)) 0)

/-- JS parseInt restricted to the argument shapes the claims use: a finite
number truncates toward zero, a string parses its leading optional sign and
decimal digits, undefined and strings without a leading integer give NaN
(none). -/
def parseIntJS : JSValue → Option ℤ
  | .num q => some (truncQ q)
  | .str s =>
      match s.data with
      | '-' :: rest => (leadingNat rest).map (fun n => -(n : ℤ))
      | cs => (leadingNat cs).map (fun n => (n : ℤ))
  | .undef => none

def typeErrorOctaveMsg : String :=
  "TypeError: The octaveOffset property must be an integer."

/-- The octave-offset-relevant state of an InputChannel: the validation
property read by the setter guard (which no InputChannel ever defines, so it
is undefined) and the stored offset. -/
structure InputChannelOffset where
  validation : Option Bool
  octaveOffset : JSValue
  deriving DecidableEq

/-- The InputChannel constructor sets the offset to 0 and defines no
validation property. -/
def inputChannelNew : InputChannelOffset :=
  { validation := none, octaveOffset := .num 0 }

/-- Embeds the InputChannel octaveOffset setter (part_000): the guard reads
this.validation, undefined (hence falsy) on every InputChannel, so the
parse-and-throw path is dead and the raw assigned value is stored. -/
def inputChannelSetOctaveOffset (ch : InputChannelOffset) (value : JSValue) :
    Except String InputChannelOffset :=
  if ch.validation.getD false then
    match parseIntJS value with
    | none => .error typeErrorOctaveMsg
    | some n => .ok { ch with octaveOffset := .num (n : ℚ) }
  else
    .ok { ch with octaveOffset := value }

/-- The octave-offset-relevant state of the WebMidi object: its validation
flag (true by default) and the stored offset. -/
structure WebMidiOffset where
  validation : Bool
  octaveOffset : JSValue
  deriving DecidableEq

def referenceErrorValueMsg : String := "ReferenceError: value is not defined"

/-- Embeds the WebMidi octaveOffset setter (WebMidi.ts lines 1076-1085). The
parameter is named arg but the body only uses the undeclared identifier
value, which resolves to no binding anywhere in the file: with validation
on, the read in value = parseInt(value) throws a ReferenceError before
parseInt runs; with validation off, the store this._octaveOffset = value
performs the same undeclared read and throws the same ReferenceError. Every
assignment therefore throws synchronously and the stored offset is never
changed. -/
def webMidiSetOctaveOffset (st : WebMidiOffset) (_arg : JSValue) :
    Except String WebMidiOffset :=
  if st.validation then
    .error referenceErrorValueMsg
  else
    .error referenceErrorValueMsg

/-- The parameter-number assembly buffer of one channel, as the states of
the in-order sequence paramMSB, paramLSB, data. -/
inductive PnState
  | empty
  | haveParamMsb (msb : ℕ)
  | haveParamLsb (msb lsb : ℕ)
  | haveDataMsb (msb lsb dataMsb : ℕ)
  deriving DecidableEq

/-- A terminal parameter-number event: its type, the composite parameter
number, and the raw and normalized composite values. -/
structure PnEvent where
  type : String
  parameterNumber : ℕ
  rawValue : ℕ
  value : ℚ
  deriving DecidableEq

/-- Builds a terminal parameter-number event; the composite number
(msb shifted left 7) or lsb is msb * 128 + lsb for 7-bit parts, and the
value is normalized over 16383. -/
def mkPnEvent (t : String) (msb lsb raw : ℕ) : PnEvent :=
  { type := t
    parameterNumber := msb * 128 + lsb
    rawValue := raw
    value := (raw : ℚ) / 16383 }

/-- Modelled from the spec: one step of the per-channel NRPN
parameter-number assembler on a control-change message with controller d1
and value v. The unified assembler (_parseEventForParameterNumber with the
_nrpnBuffer and _rpnBuffer pair) exists in the repository only as
declarations in build/InputChannel.d.ts, and the in-source legacy version
(part_000) is commented out wholesale, so the machine is modelled from the
spec. CC99 with a value other than 127 starts, or restarts over a non-empty
buffer, a fresh buffer; CC98 supplies the parameter LSB; CC6 (data entry
MSB), CC96 (increment) and CC97 (decrement) complete the in-order sequence
and fire the terminal nrpn event, whose composite value is that data byte —
the four-message vector of the spec fixes this single-event, data-MSB
reading; a CC38 following the data MSB extends the same transaction without
a further event; every other control-change message, including a CC99 null
value of 127 and any unrelated controller, discards the buffer without
emitting anything. -/
def pnStep (s : PnState) (d1 v : ℕ) : PnState × List PnEvent :=
  if d1 = 99 then
    if v ≠ 127 then (.haveParamMsb v, []) else (.empty, [])
  else if d1 = 98 then
    match s with
    | .haveParamMsb m => (.haveParamLsb m v, [])
    | _ => (.empty, [])
  else if d1 = 6 then
    match s with
    | .haveParamLsb m l => (.haveDataMsb m l v, [mkPnEvent "nrpn-dataentrycoarse" m l v])
    | _ => (.empty, [])
  else if d1 = 96 then
    match s with
    | .haveParamLsb m l => (.empty, [mkPnEvent "nrpn-dataincrement" m l v])
    | _ => (.empty, [])
  else if d1 = 97 then
    match s with
    | .haveParamLsb m l => (.empty, [mkPnEvent "nrpn-datadecrement" m l v])
    | _ => (.empty, [])
  else if d1 = 38 then
    match s with
    | .haveDataMsb _ _ _ => (.empty, [])
    | _ => (.empty, [])
  else (.empty, [])

/-- Whether a control-change message with controller d1 and value v extends
the buffer in the expected next slot: a fresh start from an empty buffer, the
parameter LSB after the MSB, a data byte after the parameter pair, or the
data LSB after the data MSB. -/
def pnExtends : PnState → ℕ → ℕ → Bool
  | .empty, d1, v => d1 == 99 && v != 127
  | .haveParamMsb _, d1, _ => d1 == 98
  | .haveParamLsb _ _, d1, _ => d1 == 6 || d1 == 96 || d1 == 97
  | .haveDataMsb _ _ _, d1, _ => d1 == 38

/-- Feeds a list of control-change (controller, value) pairs through the
assembler, collecting every emitted event in order. -/
def pnRun (s : PnState) (msgs : List (ℕ × ℕ)) : PnState × List PnEvent :=
  msgs.foldl (fun acc m =>
    let r := pnStep acc.1 m.1 m.2
    (r.1, acc.2 ++ r.2)) (s, [])

/- ------------------------------------------------------------------ -/
/- Theorems                                                           -/
/- ------------------------------------------------------------------ -/

theorem clampQ_eq_self {x lo hi : ℚ} (h1 : lo ≤ x) (h2 : x ≤ hi) :
    clampQ x lo hi = x := by
  unfold clampQ
  rw [max_eq_left h1, min_eq_left h2]

theorem roundJS_natCast (v : ℕ) : roundJS (v : ℚ) = (v : ℤ) := by
  unfold roundJS
  rw [Int.floor_eq_iff]
  constructor
  · push_cast; linarith
  · push_cast; linarith

/-- C8: for every integer v in 0..127, fromFloatTo7Bit(from7bitToFloat(v))
equals v, where from7bitToFloat(v) = clamp(v,0,127)/127 and
fromFloatTo7Bit(x) = round(clamp(x,0,1)*127). -/
theorem C8_seven_bit_roundtrip (v : ℕ) (h : v ≤ 127) :
    fromFloatTo7Bit (from7bitToFloat (v : ℚ)) = (v : ℤ) := by
  have h0 : (0 : ℚ) ≤ (v : ℚ) := by positivity
  have h127 : (v : ℚ) ≤ 127 := by exact_mod_cast h
  have hdiv0 : (0 : ℚ) ≤ (v : ℚ) / 127 := by positivity
  have hdiv1 : (v : ℚ) / 127 ≤ 1 := by
    rw [div_le_one (by norm_num : (0:ℚ) < 127)]; exact h127
  have hfrom : from7bitToFloat (v : ℚ) = (v : ℚ) / 127 := by
    unfold from7bitToFloat
    rw [clampQ_eq_self h0 h127]
  rw [hfrom]
  unfold fromFloatTo7Bit
  rw [clampQ_eq_self hdiv0 hdiv1, div_mul_cancel₀ _ (by norm_num : (127:ℚ) ≠ 0)]
  exact roundJS_natCast v

/-- Witness for C8 at v = 100. -/
theorem C8_seven_bit_roundtrip_witness :
    (100 : ℕ) ≤ 127 ∧ fromFloatTo7Bit (from7bitToFloat ((100 : ℕ) : ℚ)) = ((100 : ℕ) : ℤ) :=
  ⟨by decide, C8_seven_bit_roundtrip 100 (by decide)⟩

/-- C1: evaluation of emit at the claimed scenario — listener with callback 0
registered for the event test, then a listener with callback 1 registered
under the any-event identifier. The emitted invocation order is [1, 0]: the
any-event group runs BEFORE the group registered under the exact event name,
the opposite of the claimed (and documented) specific-first order; within
each group, registration order is kept by construction of the snapshot. -/
theorem C1_any_event_group_runs_first :
    (emit emitterSpecificThenAny "test" []).map (fun out => out.2.map Prod.fst) =
      some [1, 0] := by
  decide

/-- C2 counterexample: at controller number 7 with data2 = 64 the parser
emits exactly one event, the generic controlchange event, and no event named
controlchange-controller7 — refuting the claim that both are emitted with
identical payloads. -/
theorem C2_no_controller_specific_event :
    (parseEventForStandardMessages 0 (mkChannelMessage 176 [7, 64])).map ChannelEvent.type
        = ["controlchange"] ∧
    ((parseEventForStandardMessages 0 (mkChannelMessage 176 [7, 64])).all
        (fun e => e.type != "controlchange-controller7")) = true := by
  decide

/-- C2 amended: for every controller number n in 0..119, processing a
control-change message with data1 = n emits only the generic controlchange
event, carrying the controller number and name, value toNormalized(data2)
and rawValue data2; no controller-specific sub-event is emitted. -/
theorem C2_generic_controlchange_only (off : ℤ) (n d2 : ℕ) (h : n ≤ 119) :
    parseEventForStandardMessages off (mkChannelMessage 176 [n, d2]) =
      [{ type := "controlchange"
         controllerNumber := some n
         controllerName := ccNameByNumber n
         value := some (.num (toNormalized d2))
         rawValue := some d2 }] := by
  have h1 : ¬ (120 ≤ n) := by omega
  simp [parseEventForStandardMessages, mkChannelMessage, messageTypeFromStatus, h1]

/-- Witness for C2 at n = 7, data2 = 64. -/
theorem C2_generic_controlchange_only_witness :
    (7 : ℕ) ≤ 119 ∧
    parseEventForStandardMessages 0 (mkChannelMessage 176 [7, 64]) =
      [{ type := "controlchange"
         controllerNumber := some 7
         controllerName := ccNameByNumber 7
         value := some (.num (toNormalized 64))
         rawValue := some 64 }] :=
  ⟨by decide, C2_generic_controlchange_only 0 7 64 (by decide)⟩

/-- C3: feeding CC99=3, CC98=12, CC6=64, CC38=0 in order through the
(spec-modelled) parameter-number assembler yields exactly one nrpn-family
event, whose parameter number is 3 * 128 + 12 = 396; and every
control-change message that does not extend the buffer in the expected next
slot emits nothing and leaves no partial buffer behind — the resulting state
is either empty or a freshly restarted single-slot buffer. -/
theorem C3_nrpn_sequence_and_discard :
    ((pnRun PnState.empty [(99, 3), (98, 12), (6, 64), (38, 0)]).2.map
        (fun e => (e.type, e.parameterNumber, e.rawValue)) =
      [("nrpn-dataentrycoarse", 396, 64)]) ∧
    ∀ (s : PnState) (d1 v : ℕ), pnExtends s d1 v = false →
      (pnStep s d1 v).2 = [] ∧
      ((pnStep s d1 v).1 = PnState.empty ∨ (pnStep s d1 v).1 = PnState.haveParamMsb v) := by
  constructor
  · decide
  · intro s d1 v h
    cases s <;> simp only [pnStep] <;> split_ifs <;> simp_all [pnExtends]

/-- Witness for C3 discarding: controller 7 does not extend a buffer holding
the parameter pair, and processing it emits nothing and empties the buffer. -/
theorem C3_nrpn_sequence_and_discard_witness :
    pnExtends (PnState.haveParamLsb 3 12) 7 5 = false ∧
    ((pnStep (PnState.haveParamLsb 3 12) 7 5).2 = [] ∧
     ((pnStep (PnState.haveParamLsb 3 12) 7 5).1 = PnState.empty ∨
      (pnStep (PnState.haveParamLsb 3 12) 7 5).1 = PnState.haveParamMsb 5)) :=
  ⟨by decide, C3_nrpn_sequence_and_discard.2 (PnState.haveParamLsb 3 12) 7 5 (by decide)⟩

/-- C4: evaluation of the parser at a noteon message with velocity byte 0
(status 0x90, note 60, data2 = 0). The payload is the claimed noteoff-style
payload — value (the release) is from7bitToFloat(0) = 0 and the attached
note has rawAttack forced to 0 — but the emitted event keeps the name
noteon: the velocity-0 branch never reassigns event.type, contradicting the
claim and the branch's own noteoff event documentation. -/
theorem C4_velocity_zero_noteon_evaluation :
    parseEventForStandardMessages 0 (mkChannelMessage 144 [60, 0]) =
      [{ type := "noteon"
         note := some { number := 60, rawAttack := 0, rawRelease := 0, attack := 0, release := 0 }
         value := some (.num 0)
         rawValue := some 0
         velocity := some 0
         rawVelocity := some 0 }] := by
  simp [parseEventForStandardMessages, mkChannelMessage, messageTypeFromStatus, mkNote,
    toNormalized, from7bitToFloat, clampQ, offsetNumber]

/-- C5: for every data2, a control-change message with controller 124 emits
an omnimode event with value false, 125 an omnimode event with value true,
126 a monomode event with value false and 127 a monomode event with value
true (each followed by the generic controlchange event): the two raw
controller numbers of each pair collapse onto one event name distinguished
only by the boolean value. -/
theorem C5_channel_mode_aliasing (off : ℤ) (d2 : ℕ) :
    ((parseEventForStandardMessages off (mkChannelMessage 176 [124, d2])).map
        (fun e => (e.type, e.value)) =
      [("omnimode", some (EventValue.bool false)),
       ("controlchange", some (EventValue.num (toNormalized d2)))]) ∧
    ((parseEventForStandardMessages off (mkChannelMessage 176 [125, d2])).map
        (fun e => (e.type, e.value)) =
      [("omnimode", some (EventValue.bool true)),
       ("controlchange", some (EventValue.num (toNormalized d2)))]) ∧
    ((parseEventForStandardMessages off (mkChannelMessage 176 [126, d2])).map
        (fun e => (e.type, e.value)) =
      [("monomode", some (EventValue.bool false)),
       ("controlchange", some (EventValue.num (toNormalized d2)))]) ∧
    ((parseEventForStandardMessages off (mkChannelMessage 176 [127, d2])).map
        (fun e => (e.type, e.value)) =
      [("monomode", some (EventValue.bool true)),
       ("controlchange", some (EventValue.num (toNormalized d2)))]) := by
  refine ⟨?_, ?_, ?_, ?_⟩ <;>
    simp [parseEventForStandardMessages, mkChannelMessage, messageTypeFromStatus,
      parseChannelModeMessage, ccNameByNumber]

/-- C6 counterexample: the string abc does not parse to an integer, yet
assigning it through the InputChannel octaveOffset setter raises no error
and the stored offset becomes that string — refuting the claim that every
octave-offset setter raises a TypeError and leaves the offset unchanged. -/
theorem C6_no_typeerror_on_input_channel :
    parseIntJS (JSValue.str "abc") = none ∧
    inputChannelSetOctaveOffset inputChannelNew (JSValue.str "abc") =
      Except.ok { validation := none, octaveOffset := JSValue.str "abc" } := by
  constructor
  · decide
  · simp [inputChannelSetOctaveOffset, inputChannelNew]

/-- C6 amended: every assignment to the WebMidi octaveOffset setter throws
synchronously — a ReferenceError from the setter body's read of the
undeclared identifier value, whichever way the validation flag is set — and
the stored offset is left unchanged; the InputChannel octaveOffset setter
reads an undefined this.validation flag, so it never raises and stores the
assigned value as given, without parsing. -/
theorem C6_octave_offset_setters :
    (∀ (st : WebMidiOffset) (v : JSValue),
        webMidiSetOctaveOffset st v = Except.error referenceErrorValueMsg) ∧
    (∀ v : JSValue, inputChannelSetOctaveOffset inputChannelNew v =
        Except.ok { validation := none, octaveOffset := v }) := by
  constructor
  · intro st v
    simp [webMidiSetOctaveOffset]
  · intro v
    simp [inputChannelSetOctaveOffset, inputChannelNew]

/-- C7: for every pitchbend message with data bytes data1 and data2, the
emitted pitchbend event has value ((data2 shifted left 7) + data1 - 8192) /
8192 and rawValue (data2 shifted left 7) + data1; in particular data1 = 0,
data2 = 64 gives value 0 and data1 = 127, data2 = 127 gives value
8191/8192. -/
theorem C7_pitchbend_value (off : ℤ) (d1 d2 : ℕ) :
    (parseEventForStandardMessages off (mkChannelMessage 224 [d1, d2]) =
      [{ type := "pitchbend"
         value := some (.num (((d2 : ℚ) * 128 + (d1 : ℚ) - 8192) / 8192))
         rawValue := some (d2 * 128 + d1) }]) ∧
    ((parseEventForStandardMessages 0 (mkChannelMessage 224 [0, 64])).map
        (fun e => e.value) = [some (.num 0)]) ∧
    ((parseEventForStandardMessages 0 (mkChannelMessage 224 [127, 127])).map
        (fun e => e.value) = [some (.num (8191 / 8192))]) := by
  refine ⟨?_, ?_, ?_⟩ <;>
    simp [parseEventForStandardMessages, mkChannelMessage, messageTypeFromStatus] <;>
    norm_num

/-- C9: evaluation of emit on an emitter whose emitter-level eventsSuspended
flag is set and which holds a registered listener: the call returns
undefined (none) through a bare return — not an array — so no listener runs
and no results array is produced, contradicting the claimed (and declared)
array return. -/
theorem C9_suspended_emit_returns_undefined :
    emit emitterWithSuspendedFlag "test" [] = none := by
  decide

/-- C10: calling addListener with a non-empty string event, any callback and
no options argument fails with the TypeError raised when the Listener
constructor dereferences the undefined options object, despite the
documented default of an empty options object; the error propagates before
the event map is touched, so no listener is registered. -/
theorem C10_add_listener_without_options_fails (em : EventEmitter) (s : String) (cb : ℕ)
    (h : 1 ≤ s.length) :
    addListener em (EName.str s) cb none = Except.error undefinedOptionsErrorMsg := by
  have h2 : ¬ (s.length < 1) := by omega
  simp [addListener, h2, addListenerChecked, Listener.make]

/-- Witness for C10 at the event name test on an empty emitter. -/
theorem C10_add_listener_without_options_fails_witness :
    1 ≤ ("test" : String).length ∧
    addListener eeEmpty (EName.str "test") 0 none = Except.error undefinedOptionsErrorMsg :=
  ⟨by decide, C10_add_listener_without_options_fails eeEmpty "test" 0 (by decide)⟩

end WebmidiSpec
